import Mathlib

/-!
# Verification of the `pagos` payment core

Shallow embedding of the payment state machine, builder, processor
backends and service orchestration of the `winening_bar` repository
(`src/pagos/models.py`, `src/pagos/services.py`,
`src/pagos/domain/builders.py`, `src/pagos/infra/factories.py`),
with theorems checking the specification claims against it.

States and payment methods are Django `CharField` values, so they are
modelled as `String`s; the transition table mirrors the
`TRANSICIONES_VALIDAS` dict, whose `.get(estado, [])` lookup yields the
empty list for unknown states.  Python exceptions that the embedded
code can raise are collected in `PyExc`; `django.core.exceptions.ValidationError`
(the single class used both by the model and the builder) is
`PyExc.validationError`, `decimal.InvalidOperation` is
`PyExc.invalidOperation`.  Timestamps are abstracted as `Nat`, with the
current time passed explicitly where the code calls `save` (the
`updated_at` field has `auto_now=True`).
-/

/-- The Python exceptions reachable in the embedded code:
`django.core.exceptions.ValidationError` (carrying its list of messages),
`decimal.InvalidOperation`, and `ValueError` (mentioned in the service
docstring for unsupported methods). -/
inductive PyExc where
  | validationError (messages : List String)
  | invalidOperation
  | valueError (msg : String)
  deriving Repr, DecidableEq

/-- A `decimal.Decimal` value: either a finite number or NaN
(`Decimal("NaN")` is a successfully constructed decimal).  Ordering
comparisons against NaN signal `InvalidOperation` in Python. -/
inductive DecValue where
  | num (q : ℚ)
  | nan
  deriving Repr, DecidableEq

/-- The Python comparison `d <= 0` on a `Decimal`: raises
`decimal.InvalidOperation` when `d` is NaN. -/
def DecValue.le_zero : DecValue → Except PyExc Bool
  | .num q => .ok (decide (q ≤ 0))
  | .nan => .error .invalidOperation

/-- `Pago.Estado.PENDIENTE` (models.py). -/
def Estado.PENDIENTE : String := "pendiente"

/-- `Pago.Estado.EN_PROCESO` (models.py). -/
def Estado.EN_PROCESO : String := "en_proceso"

/-- `Pago.Estado.COMPLETADO` (models.py). -/
def Estado.COMPLETADO : String := "completado"

/-- `Pago.Estado.CANCELADO` (models.py). -/
def Estado.CANCELADO : String := "cancelado"

/-- `Pago.MetodoPago` choice values (models.py). -/
def MetodoPago.TARJETA : String := "tarjeta"

def MetodoPago.TRANSFERENCIA : String := "transferencia"

def MetodoPago.EFECTIVO : String := "efectivo"

/-- `Pago.TRANSICIONES_VALIDAS` (models.py): the allowed-targets list of
each state; the `.get(self.estado, [])` lookup gives `[]` for any
string that is not a key of the dict. -/
def TRANSICIONES_VALIDAS (estado : String) : List String :=
  if estado = Estado.PENDIENTE then [Estado.EN_PROCESO, Estado.CANCELADO]
  else if estado = Estado.EN_PROCESO then [Estado.COMPLETADO, Estado.CANCELADO]
  else if estado = Estado.COMPLETADO then []
  else if estado = Estado.CANCELADO then []
  else []

/-- The `Pago` model record (models.py): amount (`DecimalField`, nullable
until assigned), method and state (`CharField`s), the unique reference,
and the two timestamps. -/
structure Pago where
  monto : Option DecValue
  metodo_pago : String
  estado : String
  referencia : String
  created_at : Nat
  updated_at : Nat
  deriving Repr, DecidableEq

/-- `Pago._transicionar` (models.py lines 60-68): look up the current
state in `TRANSICIONES_VALIDAS`; if the target is not allowed, raise
`ValidationError` without mutating; otherwise set `estado` and save,
which refreshes `updated_at` (`auto_now`), modelled by the explicit
`now` argument. -/
def Pago.transicionar (pago : Pago) (nuevo_estado : String) (now : Nat) :
    Except PyExc Pago :=
  let permitidos := TRANSICIONES_VALIDAS pago.estado
  if nuevo_estado ∉ permitidos then
    .error (.validationError
      ["Transición inválida: " ++ pago.estado ++ " → " ++ nuevo_estado])
  else
    .ok { pago with estado := nuevo_estado, updated_at := now }

/-- `Pago.confirmar_pago` (models.py): sugar for transition to COMPLETADO. -/
def Pago.confirmar_pago (pago : Pago) (now : Nat) : Except PyExc Pago :=
  pago.transicionar Estado.COMPLETADO now

/-- `Pago.cancelar_pago` (models.py): sugar for transition to CANCELADO. -/
def Pago.cancelar_pago (pago : Pago) (now : Nat) : Except PyExc Pago :=
  pago.transicionar Estado.CANCELADO now

/-- `Pago.esta_completado` (models.py). -/
def Pago.esta_completado (pago : Pago) : Bool :=
  pago.estado = Estado.COMPLETADO

/-- The argument handed to `PagoBuilder.con_monto`, abstracted by the
outcome of `Decimal(str(monto))` (builders.py line 39): either the
construction succeeds with some decimal value (possibly NaN, since
`Decimal("NaN")` succeeds), or it raises
`InvalidOperation`/`ValueError`; `raw` is `str(monto)` as used in the
error message. -/
inductive MontoInput where
  | parsed (d : DecValue)
  | unparsable (raw : String)
  deriving Repr, DecidableEq

/-- The `PagoBuilder` internal state (builders.py `__init__`):
`_monto = None`, `_metodo_pago = "tarjeta"`, `_errors = []`. -/
structure PagoBuilder where
  monto : Option DecValue
  metodo_pago : String
  errors : List String
  deriving Repr, DecidableEq

/-- `PagoBuilder()` — the freshly initialised builder. -/
def PagoBuilder.init : PagoBuilder :=
  { monto := none, metodo_pago := MetodoPago.TARJETA, errors := [] }

/-- `PagoBuilder.con_monto` (builders.py lines 36-42): try
`Decimal(str(monto))`; on success store it, on
`InvalidOperation`/`ValueError` append an error message and leave the
stored amount as it was. -/
def PagoBuilder.con_monto (b : PagoBuilder) (monto : MontoInput) : PagoBuilder :=
  match monto with
  | .parsed d => { b with monto := some d }
  | .unparsable raw => { b with errors := b.errors ++ ["Monto inválido: " ++ raw] }

/-- `[choice[0] for choice in Pago.MetodoPago.choices]` (builders.py line 47). -/
def metodos_validos : List String :=
  [MetodoPago.TARJETA, MetodoPago.TRANSFERENCIA, MetodoPago.EFECTIVO]

/-- `PagoBuilder.con_metodo_pago` (builders.py lines 44-55): if the
value is not a valid method, append an error and keep the stored method
as it was; otherwise store the value. -/
def PagoBuilder.con_metodo_pago (b : PagoBuilder) (metodo : String) : PagoBuilder :=
  if metodo ∉ metodos_validos then
    { b with errors := b.errors ++
        ["Método de pago inválido: " ++ metodo ++
         ". Opciones válidas: [tarjeta, transferencia, efectivo]"] }
  else
    { b with metodo_pago := metodo }

/-- `PagoBuilder._validar` (builders.py lines 57-65): append
"monto requerido" when the amount is unset, else append "mayor a cero"
when `self._monto <= 0` (a comparison that raises `InvalidOperation`
on NaN); finally raise `ValidationError(self._errors)` whenever the
accumulated error list is non-empty. -/
def PagoBuilder.validar (b : PagoBuilder) : Except PyExc Unit := do
  let errors ←
    match b.monto with
    | none => pure (b.errors ++ ["El monto es requerido."])
    | some d =>
      match d.le_zero with
      | .error e => .error e
      | .ok true => pure (b.errors ++ ["El monto debe ser mayor a cero."])
      | .ok false => pure b.errors
  if errors ≠ [] then .error (.validationError errors) else pure ()

/-- `PagoBuilder.build` (builders.py lines 67-93): run `_validar`
(propagating its exception, in which case no `Pago` is constructed or
saved), then construct `Pago(monto=self._monto,
metodo_pago=self._metodo_pago)` with the model defaults
`estado = PENDIENTE`, a fresh `referencia` (here a parameter) and
store-assigned timestamps. -/
def PagoBuilder.build (b : PagoBuilder) (ref : String) (now : Nat) :
    Except PyExc Pago := do
  b.validar
  .ok { monto := b.monto, metodo_pago := b.metodo_pago,
        estado := Estado.PENDIENTE, referencia := ref,
        created_at := now, updated_at := now }

/-- The nested `gateway_response` mapping of a processor result
(factories.py). -/
structure GatewayResponse where
  transaction_id : String
  status : String
  deriving Repr, DecidableEq

/-- The result dict both processors return (factories.py): keys
`exito`, `mensaje`, `metodo`, `procesador`, `gateway_response`. -/
structure Resultado where
  exito : Bool
  mensaje : String
  metodo : String
  procesador : String
  gateway_response : GatewayResponse
  deriving Repr, DecidableEq

/-- `ProcesadorPagoReal.procesar` (factories.py lines 53-69): the
real-stub backend; returns a canned success dict with status
`approved` and transaction id `TXN-<referencia>`. -/
def ProcesadorPagoReal.procesar (pago : Pago) : Resultado :=
  { exito := true
    mensaje := "Pago procesado exitosamente (ref: " ++ pago.referencia ++ ")"
    metodo := pago.metodo_pago
    procesador := "REAL"
    gateway_response :=
      { transaction_id := "TXN-" ++ pago.referencia, status := "approved" } }

/-- `ProcesadorPagoMock.procesar` (factories.py lines 83-98): the
simulated backend; returns a success dict with status `simulated` and
transaction id `MOCK-TXN-<referencia>`. -/
def ProcesadorPagoMock.procesar (pago : Pago) : Resultado :=
  { exito := true
    mensaje := "[MOCK] Pago simulado correctamente (ref: " ++ pago.referencia ++ ")"
    metodo := pago.metodo_pago
    procesador := "MOCK"
    gateway_response :=
      { transaction_id := "MOCK-TXN-" ++ pago.referencia, status := "simulated" } }

/-- The two concrete `ProcesadorPagoBase` implementations (factories.py). -/
inductive Procesador where
  | real
  | mock
  deriving Repr, DecidableEq

/-- Dispatch of `procesar` on the concrete implementation. -/
def Procesador.procesar : Procesador → Pago → Resultado
  | .real => ProcesadorPagoReal.procesar
  | .mock => ProcesadorPagoMock.procesar

/-- `get_nombre` of each implementation (factories.py). -/
def Procesador.get_nombre : Procesador → String
  | .real => "ProcesadorPagoReal"
  | .mock => "ProcesadorPagoMock"

/-- Python `str.upper()` as used on the configuration flag: char-wise
uppercasing. -/
def pyUpper (s : String) : String := ⟨s.data.map Char.toUpper⟩

/-- `ProcesadorPagoFactory.crear` (factories.py lines 122-137):
`tipo = os.environ.get("PAYMENT_PROCESSOR_TYPE", "MOCK").upper()`;
return the real processor when `tipo == "REAL"`, the mock otherwise.
The environment variable is the `env` argument (`none` = unset). -/
def ProcesadorPagoFactory.crear (env : Option String) : Procesador :=
  let tipo := pyUpper (env.getD "MOCK")
  if tipo = "REAL" then .real else .mock

/-- `ProcesadorPagoFactory.crear_mock` (factories.py). -/
def ProcesadorPagoFactory.crear_mock : Procesador := .mock

/-- `ProcesadorPagoFactory.crear_real` (factories.py). -/
def ProcesadorPagoFactory.crear_real : Procesador := .real

/-- `PagoService.procesar_pago` (services.py lines 90-120) with the
injected processor left abstract, as the constructor's dependency
injection allows (`procesador: ProcesadorPagoBase`): first
`pago._transicionar(EN_PROCESO)` — which persists immediately on
success and propagates `ValidationError` leaving the record untouched
on failure — then `self._procesador.procesar(pago)`.  The returned
pair carries the processing outcome and the record as the caller
observes it afterwards: if the backend raises after the transition,
the exception propagates and the record stays transitioned (no
reversal). -/
def PagoService.procesar_pago_con (procesar : Pago → Except PyExc Resultado)
    (pago : Pago) (now : Nat) : Except PyExc Resultado × Pago :=
  match pago.transicionar Estado.EN_PROCESO now with
  | .error e => (.error e, pago)
  | .ok pago2 =>
    match procesar pago2 with
    | .error e => (.error e, pago2)
    | .ok resultado => (.ok resultado, pago2)

/-- `PagoService.procesar_pago` with one of the two concrete
processors of factories.py injected (neither of which raises). -/
def PagoService.procesar_pago (procesador : Procesador) (pago : Pago)
    (now : Nat) : Except PyExc Resultado × Pago :=
  PagoService.procesar_pago_con (fun p => .ok (procesador.procesar p)) pago now

/-- `PagoService.confirmar_pago` (services.py): pass-through to the
record's `confirmar_pago`. -/
def PagoService.confirmar_pago (pago : Pago) (now : Nat) : Except PyExc Pago :=
  pago.confirmar_pago now

/-- `PagoService.cancelar_pago` (services.py): pass-through to the
record's `cancelar_pago`. -/
def PagoService.cancelar_pago (pago : Pago) (now : Nat) : Except PyExc Pago :=
  pago.cancelar_pago now

/-! ## Helper lemmas -/

/-- The four directed edges of the state machine, as the spec lists
them: PENDING→IN_PROGRESS, PENDING→CANCELLED, IN_PROGRESS→COMPLETED,
IN_PROGRESS→CANCELLED. -/
def validEdges : List (String × String) :=
  [(Estado.PENDIENTE, Estado.EN_PROCESO), (Estado.PENDIENTE, Estado.CANCELADO),
   (Estado.EN_PROCESO, Estado.COMPLETADO), (Estado.EN_PROCESO, Estado.CANCELADO)]

/-- Membership in the allowed-targets list coincides with the spec's
edge list. -/
theorem mem_transiciones_iff (estado nuevo : String) :
    nuevo ∈ TRANSICIONES_VALIDAS estado ↔ (estado, nuevo) ∈ validEdges := by
  unfold TRANSICIONES_VALIDAS validEdges
  by_cases h1 : estado = Estado.PENDIENTE
  · subst h1
    simp [Estado.PENDIENTE, Estado.EN_PROCESO, Estado.COMPLETADO, Estado.CANCELADO,
      Prod.ext_iff]
  · by_cases h2 : estado = Estado.EN_PROCESO
    · subst h2
      simp [Estado.PENDIENTE, Estado.EN_PROCESO, Estado.COMPLETADO, Estado.CANCELADO,
        Prod.ext_iff] at h1 ⊢
    · simp [h1, h2, Prod.ext_iff]

/-- The transition to EN_PROCESO is allowed exactly from PENDIENTE. -/
theorem en_proceso_mem_iff (estado : String) :
    Estado.EN_PROCESO ∈ TRANSICIONES_VALIDAS estado ↔ estado = Estado.PENDIENTE := by
  rw [mem_transiciones_iff]
  unfold validEdges
  simp [Estado.PENDIENTE, Estado.EN_PROCESO, Estado.COMPLETADO, Estado.CANCELADO,
    Prod.ext_iff]

/-! ## Claims -/

/-- C1: `transition` succeeds exactly on the four edges
PENDING→IN_PROGRESS, PENDING→CANCELLED, IN_PROGRESS→COMPLETED,
IN_PROGRESS→CANCELLED; on success it sets the state to the target and
refreshes `updated_at` to the save time, and on every other pair
(including self-transitions and anything out of the terminal states) it
raises `ValidationError` ("InvalidTransition") producing no mutated
record — the caller's record keeps its `estado` and `updated_at`. -/
theorem transicionar_exactly_four_edges (pago : Pago) (nuevo : String) (now : Nat) :
    ((pago.estado, nuevo) ∈ validEdges →
      pago.transicionar nuevo now =
        .ok { pago with estado := nuevo, updated_at := now }) ∧
    ((pago.estado, nuevo) ∉ validEdges →
      pago.transicionar nuevo now =
        .error (.validationError
          ["Transición inválida: " ++ pago.estado ++ " → " ++ nuevo])) := by
  constructor
  · intro h
    have h2 : nuevo ∈ TRANSICIONES_VALIDAS pago.estado :=
      (mem_transiciones_iff pago.estado nuevo).mpr h
    unfold Pago.transicionar
    simp [h2]
  · intro h
    have h2 : nuevo ∉ TRANSICIONES_VALIDAS pago.estado :=
      fun hx => h ((mem_transiciones_iff pago.estado nuevo).mp hx)
    unfold Pago.transicionar
    simp [h2]

/-- Witness for C1: a valid edge (PENDIENTE→EN_PROCESO) succeeds and
refreshes `updated_at`; an invalid pair (COMPLETADO→EN_PROCESO) fails
with the `ValidationError`. -/
theorem transicionar_exactly_four_edges_witness :
    (Pago.transicionar
        ⟨some (.num 150), "tarjeta", "pendiente", "r1", 0, 0⟩ "en_proceso" 5 =
      .ok ⟨some (.num 150), "tarjeta", "en_proceso", "r1", 0, 5⟩) ∧
    (Pago.transicionar
        ⟨some (.num 150), "tarjeta", "completado", "r1", 0, 3⟩ "en_proceso" 5 =
      .error (.validationError ["Transición inválida: completado → en_proceso"])) :=
  ⟨(transicionar_exactly_four_edges
      ⟨some (.num 150), "tarjeta", "pendiente", "r1", 0, 0⟩ "en_proceso" 5).1
    (by decide),
   (transicionar_exactly_four_edges
      ⟨some (.num 150), "tarjeta", "completado", "r1", 0, 3⟩ "en_proceso" 5).2
    (by decide)⟩

/-- C2: `process_payment` first performs the transition to EN_PROCESO:
when the record is not PENDIENTE (in particular when COMPLETADO) it
fails with the `ValidationError` and the record is unchanged; when the
record is PENDIENTE it moves it to EN_PROCESO, dispatches to the
injected processor, and returns that processor's result, whose `exito`
field is `true` for both implementations. -/
theorem procesar_pago_transition_then_dispatch (procesador : Procesador)
    (pago : Pago) (now : Nat) :
    (pago.estado = Estado.PENDIENTE →
      PagoService.procesar_pago procesador pago now =
        (.ok (procesador.procesar
            { pago with estado := Estado.EN_PROCESO, updated_at := now }),
         { pago with estado := Estado.EN_PROCESO, updated_at := now }) ∧
      (procesador.procesar
          { pago with estado := Estado.EN_PROCESO, updated_at := now }).exito = true) ∧
    (pago.estado ≠ Estado.PENDIENTE →
      PagoService.procesar_pago procesador pago now =
        (.error (.validationError
           ["Transición inválida: " ++ pago.estado ++ " → " ++ Estado.EN_PROCESO]),
         pago)) := by
  constructor
  · intro h
    have h2 : Estado.EN_PROCESO ∈ TRANSICIONES_VALIDAS pago.estado :=
      (en_proceso_mem_iff pago.estado).mpr h
    constructor
    · unfold PagoService.procesar_pago PagoService.procesar_pago_con Pago.transicionar
      simp [h2]
    · cases procesador <;> rfl
  · intro h
    have h2 : Estado.EN_PROCESO ∉ TRANSICIONES_VALIDAS pago.estado :=
      fun hx => h ((en_proceso_mem_iff pago.estado).mp hx)
    unfold PagoService.procesar_pago PagoService.procesar_pago_con Pago.transicionar
    simp [h2]

/-- Witness for C2: a PENDIENTE record is processed successfully by the
mock processor, and a COMPLETADO record makes `process_payment` fail
with the `ValidationError`, record unchanged. -/
theorem procesar_pago_transition_then_dispatch_witness :
    (PagoService.procesar_pago .mock
        ⟨some (.num 150), "tarjeta", "pendiente", "r2", 0, 0⟩ 4 =
      (.ok (ProcesadorPagoMock.procesar
          ⟨some (.num 150), "tarjeta", "en_proceso", "r2", 0, 4⟩),
       ⟨some (.num 150), "tarjeta", "en_proceso", "r2", 0, 4⟩)) ∧
    (PagoService.procesar_pago .mock
        ⟨some (.num 150), "tarjeta", "completado", "r2", 0, 0⟩ 4 =
      (.error (.validationError ["Transición inválida: completado → en_proceso"]),
       ⟨some (.num 150), "tarjeta", "completado", "r2", 0, 0⟩)) :=
  ⟨((procesar_pago_transition_then_dispatch .mock
      ⟨some (.num 150), "tarjeta", "pendiente", "r2", 0, 0⟩ 4).1 rfl).1,
   (procesar_pago_transition_then_dispatch .mock
      ⟨some (.num 150), "tarjeta", "completado", "r2", 0, 0⟩ 4).2 (by decide)⟩

/-- C4: if the injected backend raises after the transition to
EN_PROCESO succeeded, the exception propagates and the record the
caller observes is the transitioned one — it remains EN_PROCESO, with
no automatic reversal to PENDIENTE. -/
theorem procesar_pago_no_rollback (procesar : Pago → Except PyExc Resultado)
    (pago : Pago) (now : Nat) (e : PyExc)
    (hpend : pago.estado = Estado.PENDIENTE)
    (hfail : procesar { pago with estado := Estado.EN_PROCESO, updated_at := now } =
      .error e) :
    PagoService.procesar_pago_con procesar pago now =
      (.error e, { pago with estado := Estado.EN_PROCESO, updated_at := now }) := by
  have h2 : Estado.EN_PROCESO ∈ TRANSICIONES_VALIDAS pago.estado :=
    (en_proceso_mem_iff pago.estado).mpr hpend
  unfold PagoService.procesar_pago_con Pago.transicionar
  simp [h2, hfail]

/-- Witness for C4: a backend that raises `ValueError` leaves the
record EN_PROCESO. -/
theorem procesar_pago_no_rollback_witness :
    PagoService.procesar_pago_con (fun _ => .error (.valueError "gateway down"))
        ⟨some (.num 150), "tarjeta", "pendiente", "r3", 0, 0⟩ 9 =
      (.error (.valueError "gateway down"),
       ⟨some (.num 150), "tarjeta", "en_proceso", "r3", 0, 9⟩) :=
  procesar_pago_no_rollback (fun _ => .error (.valueError "gateway down"))
    ⟨some (.num 150), "tarjeta", "pendiente", "r3", 0, 0⟩ 9
    (.valueError "gateway down") rfl rfl

/-- C3: whenever the stored amount is absent (also after an unparsable
input, whose handling leaves it unset and records a message) or parses
to a number less than or equal to zero, `build` fails with a
`ValidationError` carrying the full accumulated error list — every
previously recorded message followed by the final validation message —
and no record is constructed. -/
theorem build_fails_invalid_monto (b : PagoBuilder) (ref : String) (now : Nat) :
    (b.monto = none →
      b.build ref now =
        .error (.validationError (b.errors ++ ["El monto es requerido."]))) ∧
    (∀ q : ℚ, b.monto = some (.num q) → q ≤ 0 →
      b.build ref now =
        .error (.validationError (b.errors ++ ["El monto debe ser mayor a cero."]))) ∧
    (∀ raw : String,
      (b.con_monto (.unparsable raw)).monto = b.monto ∧
      (b.con_monto (.unparsable raw)).errors =
        b.errors ++ ["Monto inválido: " ++ raw]) := by
  refine ⟨fun h => ?_, fun q hq hle => ?_, fun raw => ⟨rfl, rfl⟩⟩
  · unfold PagoBuilder.build PagoBuilder.validar
    simp [h, Bind.bind, Except.bind, Pure.pure, Except.pure, List.append_eq_nil]
  · unfold PagoBuilder.build PagoBuilder.validar DecValue.le_zero
    simp [hq, hle, Bind.bind, Except.bind, Pure.pure, Except.pure, List.append_eq_nil]

/-- Witness for C3: an absent amount (e.g. after the unparsable input
"abc") and the negative amount -5 both make `build` fail with the full
message list. -/
theorem build_fails_invalid_monto_witness :
    ((PagoBuilder.init.con_monto (.unparsable "abc")).build "r4" 0 =
      .error (.validationError ["Monto inválido: abc", "El monto es requerido."])) ∧
    ((PagoBuilder.init.con_monto (.parsed (.num (-5)))).build "r4" 0 =
      .error (.validationError ["El monto debe ser mayor a cero."])) :=
  ⟨(build_fails_invalid_monto
      (PagoBuilder.init.con_monto (.unparsable "abc")) "r4" 0).1 rfl,
   (build_fails_invalid_monto
      (PagoBuilder.init.con_monto (.parsed (.num (-5)))) "r4" 0).2.1
     (-5) rfl (by norm_num)⟩

/-- C9: the NaN decimal passes `con_monto` without recording any error
(`Decimal("NaN")` constructs successfully), and the later `build`
escapes with `decimal.InvalidOperation` raised by the `<= 0`
comparison in `_validar`, not with a `ValidationError`. -/
theorem con_monto_nan_build_invalid_operation (b : PagoBuilder) (ref : String)
    (now : Nat) :
    (b.con_monto (.parsed .nan)).errors = b.errors ∧
    (b.con_monto (.parsed .nan)).build ref now = .error .invalidOperation := by
  refine ⟨rfl, ?_⟩
  unfold PagoBuilder.build PagoBuilder.validar PagoBuilder.con_monto DecValue.le_zero
  rfl

/-- A transaction id carries the simulated-gateway marker prefix. -/
def hasMockMarker (s : String) : Prop := ∃ rest, s = "MOCK-" ++ rest

/-- A string of the form `TXN-<ref>` never carries the `MOCK-` marker. -/
theorem txn_no_mock_marker (ref : String) : ¬ hasMockMarker ("TXN-" ++ ref) := by
  rintro ⟨rest, h⟩
  have h2 : ('T' :: 'X' :: 'N' :: '-' :: ref.data) =
      ('M' :: 'O' :: 'C' :: 'K' :: '-' :: rest.data) := congrArg String.data h
  injection h2 with h3 h4
  exact absurd h3 (by decide)

/-- C5: both processor variants return the full result shape — success
flag, a message embedding the record's reference, the record's payment
method, the processor name, and a nested gateway response with
transaction id and status; the mock's status is "simulated" and its
transaction id carries the `MOCK-` marker prefix, the real-stub's
status is "approved" and its transaction id lacks that prefix. -/
theorem procesador_result_shape (pago : Pago) :
    ((ProcesadorPagoReal.procesar pago).exito = true ∧
     (∃ pre post,
       (ProcesadorPagoReal.procesar pago).mensaje = pre ++ pago.referencia ++ post) ∧
     (ProcesadorPagoReal.procesar pago).metodo = pago.metodo_pago ∧
     (ProcesadorPagoReal.procesar pago).procesador = "REAL" ∧
     (ProcesadorPagoReal.procesar pago).gateway_response.status = "approved" ∧
     ¬ hasMockMarker (ProcesadorPagoReal.procesar pago).gateway_response.transaction_id) ∧
    ((ProcesadorPagoMock.procesar pago).exito = true ∧
     (∃ pre post,
       (ProcesadorPagoMock.procesar pago).mensaje = pre ++ pago.referencia ++ post) ∧
     (ProcesadorPagoMock.procesar pago).metodo = pago.metodo_pago ∧
     (ProcesadorPagoMock.procesar pago).procesador = "MOCK" ∧
     (ProcesadorPagoMock.procesar pago).gateway_response.status = "simulated" ∧
     hasMockMarker (ProcesadorPagoMock.procesar pago).gateway_response.transaction_id) :=
  ⟨⟨rfl, ⟨"Pago procesado exitosamente (ref: ", ")", rfl⟩, rfl, rfl, rfl,
    txn_no_mock_marker pago.referencia⟩,
   ⟨rfl, ⟨"[MOCK] Pago simulado correctamente (ref: ", ")", rfl⟩, rfl, rfl, rfl,
    ⟨"TXN-" ++ pago.referencia, rfl⟩⟩⟩

/-- C6 counterexample: the claim says the real variant is returned
exactly when the flag's value is "REAL", but the flag value "real" —
which is not "REAL" — also yields the real variant, because `crear`
upper-cases the value before comparing. -/
theorem crear_real_lowercase_cex :
    ProcesadorPagoFactory.crear (some "real") = Procesador.real ∧
    ("real" : String) ≠ "REAL" :=
  ⟨rfl, by decide⟩

/-- C6 amended: the factory returns the real-stub variant exactly when
the flag is set to a value whose uppercasing is "REAL" (so also "real",
"Real", …); for every other value, and for the unset flag (which
defaults to "MOCK"), it returns the simulated variant. -/
theorem crear_real_iff_upper_real (env : Option String) :
    (ProcesadorPagoFactory.crear env = Procesador.real ↔
      ∃ s, env = some s ∧ pyUpper s = "REAL") ∧
    (¬ (∃ s, env = some s ∧ pyUpper s = "REAL") →
      ProcesadorPagoFactory.crear env = Procesador.mock) := by
  have main : ProcesadorPagoFactory.crear env = Procesador.real ↔
      ∃ s, env = some s ∧ pyUpper s = "REAL" := by
    unfold ProcesadorPagoFactory.crear
    cases env with
    | none => simp [Option.getD, pyUpper]
    | some s =>
      by_cases h : pyUpper s = "REAL"
      · simp [h]
      · simp [h]
  refine ⟨main, fun h => ?_⟩
  cases hc : ProcesadorPagoFactory.crear env with
  | real => exact absurd (main.mp hc) h
  | mock => rfl

/-- Witness for C6 amended: the unset flag yields the mock variant. -/
theorem crear_real_iff_upper_real_witness :
    ProcesadorPagoFactory.crear none = Procesador.mock :=
  (crear_real_iff_upper_real none).2 (by rintro ⟨s, hs, _⟩; exact Option.noConfusion hs)

/-- A builder with a non-empty accumulated error list can never build:
`_validar` raises on every amount case. -/
theorem build_error_of_errors_ne_nil (b : PagoBuilder) (h : b.errors ≠ [])
    (ref : String) (now : Nat) : ∃ e, b.build ref now = .error e := by
  unfold PagoBuilder.build PagoBuilder.validar
  rcases hb : b.monto with _ | d
  · exact ⟨.validationError (b.errors ++ ["El monto es requerido."]),
      by simp [hb, Bind.bind, Except.bind, Pure.pure, Except.pure, List.append_eq_nil]⟩
  · cases d with
    | num q =>
      by_cases hq : q ≤ 0
      · exact ⟨.validationError (b.errors ++ ["El monto debe ser mayor a cero."]),
          by simp [hb, DecValue.le_zero, hq, Bind.bind, Except.bind, Pure.pure,
            Except.pure, List.append_eq_nil]⟩
      · exact ⟨.validationError b.errors,
          by simp [hb, DecValue.le_zero, hq, Bind.bind, Except.bind, Pure.pure,
            Except.pure, h]⟩
    | nan =>
      exact ⟨.invalidOperation,
        by simp [hb, DecValue.le_zero, Bind.bind, Except.bind]⟩

/-- C7 counterexample: the claim says an invalid method value leaves
the builder's method at its default (tarjeta), but after a valid call
storing "efectivo" the invalid value "bitcoin" records an error while
the method stays "efectivo", not the default. -/
theorem con_metodo_pago_invalid_cex :
    ((PagoBuilder.init.con_metodo_pago MetodoPago.EFECTIVO).con_metodo_pago
        "bitcoin").errors ≠ [] ∧
    ((PagoBuilder.init.con_metodo_pago MetodoPago.EFECTIVO).con_metodo_pago
        "bitcoin").metodo_pago ≠ MetodoPago.TARJETA := by
  constructor <;> decide

/-- C7 amended: for every value outside {tarjeta, transferencia,
efectivo}, `con_metodo_pago` records an error and leaves the stored
method unchanged — hence still at its default (tarjeta) whenever no
valid method was previously set — and the eventual `build` fails. -/
theorem con_metodo_pago_invalid_keeps_method (b : PagoBuilder) (metodo : String)
    (h : metodo ∉ metodos_validos) :
    (b.con_metodo_pago metodo).metodo_pago = b.metodo_pago ∧
    (b.con_metodo_pago metodo).errors =
      b.errors ++ ["Método de pago inválido: " ++ metodo ++
        ". Opciones válidas: [tarjeta, transferencia, efectivo]"] ∧
    ∀ ref now, ∃ e, (b.con_metodo_pago metodo).build ref now = .error e := by
  have hb : b.con_metodo_pago metodo =
      { b with errors := b.errors ++
          ["Método de pago inválido: " ++ metodo ++
           ". Opciones válidas: [tarjeta, transferencia, efectivo]"] } := by
    unfold PagoBuilder.con_metodo_pago
    simp [h]
  refine ⟨by rw [hb], by rw [hb], fun ref now => ?_⟩
  exact build_error_of_errors_ne_nil _ (by rw [hb]; simp) ref now

/-- Witness for C7 amended: on a fresh builder the invalid value
"bitcoin" leaves the method at the default and makes `build` fail. -/
theorem con_metodo_pago_invalid_keeps_method_witness :
    (PagoBuilder.init.con_metodo_pago "bitcoin").metodo_pago = MetodoPago.TARJETA ∧
    ∃ e, (PagoBuilder.init.con_metodo_pago "bitcoin").build "r5" 0 = .error e :=
  ⟨(con_metodo_pago_invalid_keeps_method PagoBuilder.init "bitcoin" (by decide)).1,
   (con_metodo_pago_invalid_keeps_method PagoBuilder.init "bitcoin" (by decide)).2.2
     "r5" 0⟩

/-- C8: the error raised on an invalid state transition and the error
raised on builder validation failure are the same exception class —
both are the single `ValidationError` (`django.core.exceptions`), so
callers cannot distinguish them by type.  (The builder hypothesis
excludes the NaN amount, whose failure is `decimal.InvalidOperation`,
a different class — see the NaN claim.) -/
theorem transition_and_builder_same_exception_class :
    (∀ (pago : Pago) (nuevo : String) (now : Nat) (e : PyExc),
       pago.transicionar nuevo now = .error e →
       ∃ msgs, e = PyExc.validationError msgs) ∧
    (∀ (b : PagoBuilder) (ref : String) (now : Nat) (e : PyExc),
       b.monto ≠ some DecValue.nan →
       b.build ref now = .error e →
       ∃ msgs, e = PyExc.validationError msgs) := by
  constructor
  · intro pago nuevo now e h
    unfold Pago.transicionar at h
    by_cases hm : nuevo ∈ TRANSICIONES_VALIDAS pago.estado
    · simp [hm] at h
    · simp [hm] at h
      exact ⟨_, h.symm⟩
  · intro b ref now e hnan h
    unfold PagoBuilder.build PagoBuilder.validar at h
    rcases hb : b.monto with _ | d
    · simp [hb, Bind.bind, Except.bind, Pure.pure, Except.pure,
        List.append_eq_nil] at h
      exact ⟨_, h.symm⟩
    · cases d with
      | num q =>
        by_cases hq : q ≤ 0
        · simp [hb, DecValue.le_zero, hq, Bind.bind, Except.bind, Pure.pure,
            Except.pure, List.append_eq_nil] at h
          exact ⟨_, h.symm⟩
        · by_cases herr : b.errors = []
          · simp [hb, DecValue.le_zero, hq, herr, Bind.bind, Except.bind,
              Pure.pure, Except.pure] at h
          · simp [hb, DecValue.le_zero, hq, herr, Bind.bind, Except.bind,
              Pure.pure, Except.pure] at h
            exact ⟨_, h.symm⟩
      | nan => exact absurd hb hnan

/-- Witness for C8: a concrete invalid transition error and a concrete
builder validation error are both the `ValidationError` class. -/
theorem transition_and_builder_same_exception_class_witness :
    (∃ msgs, PyExc.validationError ["Transición inválida: completado → cancelado"] =
      PyExc.validationError msgs) ∧
    (∃ msgs, PyExc.validationError ["El monto es requerido."] =
      PyExc.validationError msgs) :=
  ⟨transition_and_builder_same_exception_class.1
      ⟨some (.num 150), "tarjeta", "completado", "r7", 0, 0⟩ "cancelado" 3
      (PyExc.validationError ["Transición inválida: completado → cancelado"]) rfl,
   transition_and_builder_same_exception_class.2
      PagoBuilder.init "r7" 0
      (PyExc.validationError ["El monto es requerido."]) (by decide) rfl⟩

/-- C10: both processor implementations return `exito = true` for every
record regardless of its method; `process_payment` with either
implementation injected never fails with anything but the transition's
`ValidationError` (in particular never with the `ValueError` that
would signal an unsupported method — no per-method registry exists),
and from PENDIENTE it always returns a success result. -/
theorem procesadores_always_succeed (pago : Pago) :
    (ProcesadorPagoReal.procesar pago).exito = true ∧
    (ProcesadorPagoMock.procesar pago).exito = true ∧
    (∀ (procesador : Procesador) (now : Nat) (e : PyExc),
       (PagoService.procesar_pago procesador pago now).1 = .error e →
       ∃ msgs, e = PyExc.validationError msgs) ∧
    (∀ (procesador : Procesador) (now : Nat),
       pago.estado = Estado.PENDIENTE →
       ∃ r, (PagoService.procesar_pago procesador pago now).1 = .ok r ∧
         r.exito = true) := by
  refine ⟨rfl, rfl, fun procesador now e h => ?_, fun procesador now hp => ?_⟩
  · unfold PagoService.procesar_pago PagoService.procesar_pago_con
      Pago.transicionar at h
    by_cases hm : Estado.EN_PROCESO ∈ TRANSICIONES_VALIDAS pago.estado
    · simp [hm] at h
    · simp [hm] at h
      exact ⟨_, h.symm⟩
  · have hm : Estado.EN_PROCESO ∈ TRANSICIONES_VALIDAS pago.estado :=
      (en_proceso_mem_iff pago.estado).mpr hp
    refine ⟨procesador.procesar
        { pago with estado := Estado.EN_PROCESO, updated_at := now }, ?_, ?_⟩
    · unfold PagoService.procesar_pago PagoService.procesar_pago_con
        Pago.transicionar
      simp [hm]
    · cases procesador <;> rfl

/-- Witness for C10: a COMPLETADO record fails only with the
`ValidationError`, and a PENDIENTE record processed with the real stub
yields a success result. -/
theorem procesadores_always_succeed_witness :
    (∃ msgs, PyExc.validationError ["Transición inválida: completado → en_proceso"] =
      PyExc.validationError msgs) ∧
    (∃ r, (PagoService.procesar_pago .real
        ⟨some (.num 150), "efectivo", "pendiente", "r6", 0, 0⟩ 2).1 = .ok r ∧
      r.exito = true) :=
  ⟨(procesadores_always_succeed
      ⟨some (.num 150), "efectivo", "completado", "r6", 0, 0⟩).2.2.1
      .real 2 (PyExc.validationError ["Transición inválida: completado → en_proceso"])
      rfl,
   (procesadores_always_succeed
      ⟨some (.num 150), "efectivo", "pendiente", "r6", 0, 0⟩).2.2.2
      .real 2 rfl⟩

/-- Witness for C5: the two statuses at a concrete record. -/
theorem procesador_result_shape_witness :
    (ProcesadorPagoReal.procesar
        ⟨some (.num 150), "tarjeta", "en_proceso", "r8", 0, 1⟩).gateway_response.status =
      "approved" ∧
    (ProcesadorPagoMock.procesar
        ⟨some (.num 150), "tarjeta", "en_proceso", "r8", 0, 1⟩).gateway_response.status =
      "simulated" :=
  ⟨(procesador_result_shape
      ⟨some (.num 150), "tarjeta", "en_proceso", "r8", 0, 1⟩).1.2.2.2.2.1,
   (procesador_result_shape
      ⟨some (.num 150), "tarjeta", "en_proceso", "r8", 0, 1⟩).2.2.2.2.2.1⟩

/-- Witness for C9: a fresh builder given NaN builds into
`InvalidOperation`. -/
theorem con_monto_nan_build_invalid_operation_witness :
    (PagoBuilder.init.con_monto (.parsed .nan)).build "r9" 0 =
      .error .invalidOperation :=
  (con_monto_nan_build_invalid_operation PagoBuilder.init "r9" 0).2
